import Mathlib

/-!
Shallow embedding of the StyleSwap generation workflow (`src/App.tsx`).

The component's React `useState` cells become the fields of `AppState`;
each event handler (`handleFileChange` success callback, `handleStartOver`,
`handleGenerate`, the preset button's `onClick`, the custom-prompt
`onChange`, `handleSelectKey`, and the mount-time key check) becomes one
constructor of `Event`, interpreted by `stepCall`.  `handleGenerate` is an
async function: the part before `await generateBackdrop(...)` is the
`generateClick` event (guarded by the generate buttons' `disabled`
attribute), and the continuation after the `await` — the `try`/`catch`
commit of the service outcome — is the `respond` event, which the code
applies whenever the promise settles, with no check that the attempt is
still current.
-/

namespace StyleSwap

/-- Modelled from the spec: the `AppStatus` enum lives in `src/types.ts`,
which is not among the provided sources; §3 lists the four values
Idle, Generating, Success, Error. -/
inductive AppStatus where
  | idle
  | generating
  | success
  | error
deriving DecidableEq

/-- Modelled from the spec: the `Preset` type lives in `src/types.ts`,
which is not among the provided sources; §3 lists the fields
id, name, description, icon. -/
structure Preset where
  id : String
  name : String
  description : String
  icon : String
deriving DecidableEq

/-- The argument triple of one `generateBackdrop(originalImage,
originalMimeType, prompt)` call issued by `handleGenerate`. -/
structure GenRequest where
  imageData : String
  mimeType : String
  prompt : String
deriving DecidableEq

/-- The `useState` cells of the `App` component (`src/App.tsx`, lines 8-15). -/
structure AppState where
  status : AppStatus
  originalImage : Option String
  originalMimeType : String
  resultImage : Option String
  selectedPreset : Preset
  customPrompt : String
  error : Option String
  needsApiKey : Bool
deriving DecidableEq

/-- Modelled from the spec: the preset catalog `BACKDROP_PRESETS` lives in
`src/constants.ts`, which is not among the provided sources; §8 scenario A
names the preset "Studio White" with description
"clean white studio backdrop". -/
def studioWhite : Preset :=
  { id := "studio-white", name := "Studio White"
    description := "clean white studio backdrop", icon := "fa-circle" }

/-- Modelled from the spec: catalog stand-in for `src/constants.ts`. -/
def BACKDROP_PRESETS : List Preset := [studioWhite]

/-- Initial state: the `useState` initializers of `App`
(idle, no images, empty mime and prompt, `BACKDROP_PRESETS[0]`,
no error, `needsApiKey = false`). -/
def init : AppState :=
  { status := .idle, originalImage := none, originalMimeType := ""
    resultImage := none, selectedPreset := studioWhite, customPrompt := ""
    error := none, needsApiKey := false }

/-- JavaScript substring containment (`String.prototype.includes`) on
character lists: some suffix of `l` has `pat` as a prefix. -/
def hasSubstr (pat : List Char) : List Char → Bool
  | [] => pat.isPrefixOf []
  | c :: t => pat.isPrefixOf (c :: t) || hasSubstr pat t

/-- `m.includes(pat)` from the `catch` branch of `handleGenerate`. -/
def strIncludes (m pat : String) : Bool :=
  hasSubstr pat.toList m.toList

/-- The marker substring `handleGenerate` looks for in a failure message:
`err.message?.includes("API Key configuration")`. -/
def apiKeyMarker : String := "API Key configuration"

/-- Prompt resolution, line 71 of `App.tsx`:
`const prompt = customPrompt || selectedPreset.description;` — a JavaScript
string is falsy exactly when it is empty. -/
def resolvePrompt (customText : String) (preset : Preset) : String :=
  if customText = "" then preset.description else customText

/-- The `disabled` attribute of both generate buttons:
`!originalImage || status === AppStatus.GENERATING`. -/
def generateDisabled (s : AppState) : Bool :=
  s.originalImage.isNone || decide (s.status = AppStatus.generating)

/-- The synchronous prefix of `handleGenerate` (lines 65-74): guard
`if (!originalImage) return;`, then `setStatus(GENERATING)`,
`setError(null)`, resolve the prompt and issue the
`generateBackdrop` call.  Returns the new state and the issued request. -/
def handleGenerateBegin (s : AppState) : AppState × Option GenRequest :=
  match s.originalImage with
  | none => (s, none)
  | some img =>
      ({ s with status := .generating, error := none },
       some { imageData := img, mimeType := s.originalMimeType
              prompt := resolvePrompt s.customPrompt s.selectedPreset })

/-- The continuation of `handleGenerate` after `await generateBackdrop`:
on success `setResultImage(result); setStatus(SUCCESS)`; on failure
`setError(err.message || "Something went wrong."); setStatus(ERROR)` and,
when the raw message contains the marker, `setNeedsApiKey(true)`.  The code
runs this whenever the promise settles, regardless of any intervening
`handleStartOver` or newer `handleGenerate`. -/
def commitOutcome (s : AppState) (outcome : Except String String) : AppState :=
  match outcome with
  | .ok result => { s with resultImage := some result, status := .success }
  | .error msg =>
      let shown := if msg = "" then "Something went wrong." else msg
      let s1 := { s with error := some shown, status := .error }
      if strIncludes msg apiKeyMarker then { s1 with needsApiKey := true } else s1

/-- The discrete events the component reacts to.  `fileChange` is the
successful `FileReader.onload` callback of `handleFileChange`;
`startOver` is `handleStartOver`; `selectPreset` is the preset button's
`onClick`; `setCustomPromptTo` is the textarea's `onChange`; `selectKey`
is `handleSelectKey` with `window.aistudio` present; `checkKey` is the
mount-time effect with `window.aistudio` present; `generateClick` is a
click on a generate button; `respond` is the settling of an issued
`generateBackdrop` promise with its outcome. -/
inductive Event where
  | fileChange (data : String) (mime : String)
  | startOver
  | selectPreset (p : Preset)
  | setCustomPromptTo (t : String)
  | selectKey
  | checkKey (hasKey : Bool)
  | generateClick
  | respond (outcome : Except String String)

/-- One event step of the component, returning the new state and the
`generateBackdrop` request issued by the step, if any. -/
def stepCall (s : AppState) (e : Event) : AppState × Option GenRequest :=
  match e with
  | .fileChange data mime =>
      ({ s with originalImage := some data, originalMimeType := mime
                resultImage := none, status := .idle, error := none }, none)
  | .startOver =>
      ({ s with originalImage := none, resultImage := none
                originalMimeType := "", status := .idle, error := none
                customPrompt := "" }, none)
  | .selectPreset p =>
      ({ s with selectedPreset := p, customPrompt := "" }, none)
  | .setCustomPromptTo t => ({ s with customPrompt := t }, none)
  | .selectKey => ({ s with needsApiKey := false }, none)
  | .checkKey hasKey => ({ s with needsApiKey := !hasKey }, none)
  | .generateClick =>
      if generateDisabled s then (s, none) else handleGenerateBegin s
  | .respond outcome => (commitOutcome s outcome, none)

/-- The state part of one event step. -/
def step (s : AppState) (e : Event) : AppState := (stepCall s e).1

/-- Run a sequence of events. -/
def run (s : AppState) (es : List Event) : AppState := es.foldl step s

/-- A sample state with an ingested image and a completed successful
generation, used to instantiate theorems at concrete inputs. -/
def sampleSuccess : AppState :=
  { status := .success, originalImage := some "data:image/png;base64,AAAA"
    originalMimeType := "image/png", resultImage := some "R1"
    selectedPreset := studioWhite, customPrompt := ""
    error := none, needsApiKey := false }

/-- Claim C2: while `status` is `Generating`, a click on a generate button is
rejected by the `disabled` attribute — the state is untouched and no
`generateBackdrop` call is issued, so at most one request is in flight. -/
theorem start_noop_while_generating (s : AppState)
    (h : s.status = AppStatus.generating) :
    stepCall s Event.generateClick = (s, none) := by
  simp [stepCall, generateDisabled, h]

/-- Witness for C2 at a concrete generating state. -/
theorem start_noop_while_generating_witness :
    stepCall { sampleSuccess with status := .generating } Event.generateClick
      = ({ sampleSuccess with status := .generating }, none) :=
  start_noop_while_generating { sampleSuccess with status := .generating } rfl

/-- Claim C7: `handleStartOver` from any state yields `Idle` with the source
image, mime type, result image, error, and custom prompt override cleared. -/
theorem reset_clears_state (s : AppState) :
    (step s Event.startOver).status = AppStatus.idle ∧
    (step s Event.startOver).originalImage = none ∧
    (step s Event.startOver).originalMimeType = "" ∧
    (step s Event.startOver).resultImage = none ∧
    (step s Event.startOver).error = none ∧
    (step s Event.startOver).customPrompt = "" :=
  ⟨rfl, rfl, rfl, rfl, rfl, rfl⟩

/-- Claim C8: prompt resolution is pure in `(customText, selectedPreset)`:
any non-empty custom text takes precedence over the preset, empty custom
text falls back to the preset's description (no trimming — whitespace counts
as non-empty), and empty custom text with an empty description yields the
empty prompt. -/
theorem prompt_resolution :
    (∀ (x : String) (p : Preset), x ≠ "" → resolvePrompt x p = x) ∧
    (∀ p : Preset, resolvePrompt "" p = p.description) ∧
    (∀ p : Preset, p.description = "" → resolvePrompt "" p = "") := by
  refine ⟨fun x p hx => ?_, fun p => ?_, fun p hp => ?_⟩
  · simp [resolvePrompt, hx]
  · simp [resolvePrompt]
  · simp [resolvePrompt, hp]

/-- Witness for C8: whitespace custom text wins even over a preset, and an
empty-description preset resolves to the empty prompt. -/
theorem prompt_resolution_witness :
    resolvePrompt " " studioWhite = " " ∧
    resolvePrompt "" studioWhite = studioWhite.description ∧
    resolvePrompt "" { studioWhite with description := "" } = "" :=
  ⟨prompt_resolution.1 " " studioWhite (by decide),
   prompt_resolution.2.1 studioWhite,
   prompt_resolution.2.2 { studioWhite with description := "" } rfl⟩

/-- Counterexample to claim C5: `handleGenerate` does not clear
`resultImage` when it begins a new generation — after a successful run,
clicking generate again leaves the previous result in place while
`status` is already `Generating`. -/
theorem start_does_not_clear_result_cex :
    (step sampleSuccess Event.generateClick).status = AppStatus.generating ∧
    (step sampleSuccess Event.generateClick).resultImage = some "R1" := by
  constructor <;> rfl

/-- Claim C5 as amended: `resultImage` is cleared by `reset()`
(`handleStartOver`), but `start()` (`handleGenerate`) leaves it unchanged
while the new outcome is pending. -/
theorem reset_clears_result_start_preserves (s : AppState) :
    (step s Event.startOver).resultImage = none ∧
    (step s Event.generateClick).resultImage = s.resultImage := by
  refine ⟨rfl, ?_⟩
  simp only [step, stepCall]
  split
  · rfl
  · simp only [handleGenerateBegin]
    split <;> rfl

/-- Claim C6: from any state with a source image present and no generation
in flight, `start()` followed by a successful external response `r` yields
`status = Success` and `resultImage = r`. -/
theorem success_sets_result (s : AppState) (img r : String)
    (himg : s.originalImage = some img)
    (hg : s.status ≠ AppStatus.generating) :
    (step (step s Event.generateClick) (Event.respond (Except.ok r))).status
        = AppStatus.success ∧
    (step (step s Event.generateClick) (Event.respond (Except.ok r))).resultImage
        = some r := by
  constructor <;>
    simp [step, stepCall, generateDisabled, himg, hg, handleGenerateBegin,
      commitOutcome]

/-- Witness for C6 at a concrete state and response. -/
theorem success_sets_result_witness :
    (step (step { sampleSuccess with resultImage := none } Event.generateClick)
        (Event.respond (Except.ok "R9"))).status = AppStatus.success ∧
    (step (step { sampleSuccess with resultImage := none } Event.generateClick)
        (Event.respond (Except.ok "R9"))).resultImage = some "R9" :=
  success_sets_result { sampleSuccess with resultImage := none }
    "data:image/png;base64,AAAA" "R9" rfl (by decide)

/-- Counterexample to claim C4: the failure message is not always surfaced
verbatim — `setError(err.message || "Something went wrong.")` replaces an
empty failure message by the fallback text, so a failing response with
message `""` yields `error = "Something went wrong." ≠ ""`. -/
theorem empty_error_message_reworded_cex :
    (step (step { sampleSuccess with resultImage := none } Event.generateClick)
        (Event.respond (Except.error ""))).error = some "Something went wrong." ∧
    (step (step { sampleSuccess with resultImage := none } Event.generateClick)
        (Event.respond (Except.error ""))).error ≠ some "" := by
  constructor
  · rfl
  · decide

/-- Claim C4 as amended: for every state with a source image and no
generation in flight, `start()` followed by a failing response with
non-empty message `m` yields `status = Error`, `error` equal to `m`
verbatim, `resultImage` unchanged from before the call, and no new
`generateBackdrop` call issued (no automatic retry).  An empty failure
message is replaced by the fallback "Something went wrong.". -/
theorem failure_surfaces_message (s : AppState) (img m : String)
    (himg : s.originalImage = some img)
    (hg : s.status ≠ AppStatus.generating)
    (hm : m ≠ "") :
    (step (step s Event.generateClick) (Event.respond (Except.error m))).status
        = AppStatus.error ∧
    (step (step s Event.generateClick) (Event.respond (Except.error m))).error
        = some m ∧
    (step (step s Event.generateClick) (Event.respond (Except.error m))).resultImage
        = s.resultImage ∧
    (stepCall (step s Event.generateClick) (Event.respond (Except.error m))).2
        = none := by
  have hstep : step s Event.generateClick
      = { s with status := .generating, error := none } := by
    simp [step, stepCall, generateDisabled, himg, hg, handleGenerateBegin]
  rw [hstep]
  refine ⟨?_, ?_, ?_, rfl⟩ <;>
    · simp only [step, stepCall, commitOutcome, if_neg hm]
      split <;> rfl

/-- Witness for C4 at a concrete state and failure message. -/
theorem failure_surfaces_message_witness :
    (step (step { sampleSuccess with resultImage := none } Event.generateClick)
        (Event.respond (Except.error "quota exceeded"))).status
        = AppStatus.error ∧
    (step (step { sampleSuccess with resultImage := none } Event.generateClick)
        (Event.respond (Except.error "quota exceeded"))).error
        = some "quota exceeded" ∧
    (step (step { sampleSuccess with resultImage := none } Event.generateClick)
        (Event.respond (Except.error "quota exceeded"))).resultImage
        = ({ sampleSuccess with resultImage := none } : AppState).resultImage ∧
    (stepCall (step { sampleSuccess with resultImage := none } Event.generateClick)
        (Event.respond (Except.error "quota exceeded"))).2 = none :=
  failure_surfaces_message { sampleSuccess with resultImage := none }
    "data:image/png;base64,AAAA" "quota exceeded" rfl (by decide) (by decide)

/-- Claim C9: committing a failing response with message `m` always sets
`status = Error`; it sets `needsApiKey = true` when `m` contains the marker
"API Key configuration", and leaves `needsApiKey` unchanged otherwise. -/
theorem failure_credential_classification (s : AppState) (m : String) :
    (step s (Event.respond (Except.error m))).status = AppStatus.error ∧
    (strIncludes m apiKeyMarker = true →
      (step s (Event.respond (Except.error m))).needsApiKey = true) ∧
    (strIncludes m apiKeyMarker = false →
      (step s (Event.respond (Except.error m))).needsApiKey = s.needsApiKey) := by
  refine ⟨?_, fun hmark => ?_, fun hmark => ?_⟩ <;>
    · simp only [step, stepCall, commitOutcome]
      first
        | (split <;> rfl)
        | (rw [if_pos hmark])
        | (rw [if_neg (by simp [hmark])])

/-- Witness for C9: a message containing the marker re-arms the credential
gate; one without it leaves the flag untouched. -/
theorem failure_credential_classification_witness :
    (step sampleSuccess
      (Event.respond (Except.error "API Key configuration invalid"))).needsApiKey
      = true ∧
    (step sampleSuccess
      (Event.respond (Except.error "network down"))).needsApiKey
      = sampleSuccess.needsApiKey :=
  ⟨(failure_credential_classification sampleSuccess
      "API Key configuration invalid").2.1 (by decide),
   (failure_credential_classification sampleSuccess
      "network down").2.2 (by decide)⟩

/-- Claim C10: the preset button's `onClick` sets the clicked preset as
selected and clears the custom prompt; every other field is unchanged, and
the next generation started from the resulting state is issued with that
preset's description as its prompt. -/
theorem preset_selection_effect (s : AppState) (p : Preset) :
    (step s (Event.selectPreset p)).selectedPreset = p ∧
    (step s (Event.selectPreset p)).customPrompt = "" ∧
    (step s (Event.selectPreset p)).status = s.status ∧
    (step s (Event.selectPreset p)).originalImage = s.originalImage ∧
    (step s (Event.selectPreset p)).originalMimeType = s.originalMimeType ∧
    (step s (Event.selectPreset p)).resultImage = s.resultImage ∧
    (step s (Event.selectPreset p)).error = s.error ∧
    (step s (Event.selectPreset p)).needsApiKey = s.needsApiKey ∧
    (∀ img : String, s.originalImage = some img →
      s.status ≠ AppStatus.generating →
      (stepCall (step s (Event.selectPreset p)) Event.generateClick).2
        = some { imageData := img, mimeType := s.originalMimeType
                 prompt := p.description }) := by
  refine ⟨rfl, rfl, rfl, rfl, rfl, rfl, rfl, rfl, fun img himg hg => ?_⟩
  simp [step, stepCall, generateDisabled, himg, hg, handleGenerateBegin,
    resolvePrompt]

/-- Witness for C10 at a concrete state and preset. -/
theorem preset_selection_effect_witness :
    (step sampleSuccess
      (Event.selectPreset { studioWhite with id := "p2", description := "on a beach" })).selectedPreset
      = { studioWhite with id := "p2", description := "on a beach" } ∧
    (stepCall (step sampleSuccess
        (Event.selectPreset { studioWhite with id := "p2", description := "on a beach" }))
        Event.generateClick).2
      = some { imageData := "data:image/png;base64,AAAA"
               mimeType := "image/png", prompt := "on a beach" } :=
  ⟨(preset_selection_effect sampleSuccess
      { studioWhite with id := "p2", description := "on a beach" }).1,
   (preset_selection_effect sampleSuccess
      { studioWhite with id := "p2", description := "on a beach" }).2.2.2.2.2.2.2.2
      "data:image/png;base64,AAAA" rfl (by decide)⟩

/-- Claim C1: `handleGenerate` has no attempt token, so the continuation
after `await generateBackdrop` commits its outcome even when the attempt
has been superseded — after ingest, start, and `reset()`, the late success
response still mutates the freshly reset state to
`{status: Success, resultImage: R1}`. -/
theorem stale_response_applied_after_reset :
    (run init [Event.fileChange "I1" "image/png", Event.generateClick,
        Event.startOver]).status = AppStatus.idle ∧
    (run init [Event.fileChange "I1" "image/png", Event.generateClick,
        Event.startOver]).resultImage = none ∧
    (step (run init [Event.fileChange "I1" "image/png", Event.generateClick,
        Event.startOver]) (Event.respond (Except.ok "R1"))).status
      = AppStatus.success ∧
    (step (run init [Event.fileChange "I1" "image/png", Event.generateClick,
        Event.startOver]) (Event.respond (Except.ok "R1"))).resultImage
      = some "R1" := by
  refine ⟨rfl, rfl, rfl, rfl⟩

/-- Counterexample to claim C3: starting a new generation after a success
does not clear `resultImage`, so a state with `status = Generating` and a
non-empty `resultImage` is reachable. -/
theorem result_nonempty_while_generating_cex :
    (run init [Event.fileChange "I1" "image/png", Event.generateClick,
        Event.respond (Except.ok "R1"), Event.generateClick]).status
      = AppStatus.generating ∧
    (run init [Event.fileChange "I1" "image/png", Event.generateClick,
        Event.respond (Except.ok "R1"), Event.generateClick]).resultImage
      = some "R1" := by
  refine ⟨rfl, rfl⟩

/-- Each single event step preserves the invariant that an `Idle` state
carries no result image. -/
theorem idle_no_result_step (s : AppState) (e : Event)
    (h : s.status = AppStatus.idle → s.resultImage = none) :
    (step s e).status = AppStatus.idle → (step s e).resultImage = none := by
  cases e with
  | fileChange data mime => intro _; rfl
  | startOver => intro _; rfl
  | selectPreset p => exact h
  | setCustomPromptTo t => exact h
  | selectKey => exact h
  | checkKey hasKey => exact h
  | generateClick =>
      simp only [step, stepCall]
      split
      · exact h
      · simp only [handleGenerateBegin]
        split
        · exact h
        · intro hidle; exact absurd hidle (by simp)
  | respond outcome =>
      cases outcome with
      | ok r => intro hidle; exact absurd hidle (by simp [step, stepCall, commitOutcome])
      | error m =>
          intro hidle
          refine absurd hidle ?_
          simp only [step, stepCall, commitOutcome]
          split <;> simp

/-- The invariant of `idle_no_result_step` is preserved by any run. -/
theorem idle_no_result_run (es : List Event) :
    ∀ s : AppState, (s.status = AppStatus.idle → s.resultImage = none) →
      ((run s es).status = AppStatus.idle → (run s es).resultImage = none) := by
  induction es with
  | nil => exact fun s h => h
  | cons e t ih => exact fun s h => ih (step s e) (idle_no_result_step s e h)

/-- Claim C3 as amended: in every state reachable from the initial state by
any event sequence, `resultImage` is non-empty only when `status ≠ Idle`
(it can persist into `Generating` and `Error` because `handleGenerate` does
not clear it; every transition into `Idle` does clear it). -/
theorem reachable_idle_no_result (es : List Event)
    (h : (run init es).status = AppStatus.idle) :
    (run init es).resultImage = none :=
  idle_no_result_run es init (fun _ => rfl) h

/-- Witness for the amended C3 on a concrete event sequence ending `Idle`. -/
theorem reachable_idle_no_result_witness :
    (run init [Event.fileChange "I1" "image/png", Event.generateClick,
        Event.respond (Except.ok "R1"), Event.startOver]).resultImage = none :=
  reachable_idle_no_result [Event.fileChange "I1" "image/png",
    Event.generateClick, Event.respond (Except.ok "R1"), Event.startOver] rfl

end StyleSwap
